import Mathlib

/-!
Verification development for the Discord webhook MCP server
(`discord_mcp.py`).  The Python source is shallowly embedded below:
pure helpers become Lean functions, the single outbound HTTP call and the
registry file become explicit parameters (an `Except`-wrapped response
oracle and a loaded registry value), and Python exceptions become an
explicit `PyExn` type threaded through `Except`.
-/

set_option maxRecDepth 100000
set_option maxHeartbeats 1600000

namespace DiscordMcp

/-! ## Python text primitives

The Python builtins used by the source (`str.lower`, `str.isalnum`,
`str.strip`, `int(s, 16)`) are modelled character-wise.  The character
tables are faithful on the Basic Latin and Latin-1 Supplement ranges
(plus U+03BC, the lowercase image of U+00B5); code points above U+00FF
are outside the modelled domain. -/

/-- Python `str.lower` on a single character (Latin-1 domain). -/
def pyLowerChar (c : Char) : Char :=
  if 65 ≤ c.toNat ∧ c.toNat ≤ 90 then Char.ofNat (c.toNat + 32)
  else if (192 ≤ c.toNat ∧ c.toNat ≤ 222) ∧ c.toNat ≠ 215 then Char.ofNat (c.toNat + 32)
  else if c.toNat = 181 then Char.ofNat 956
  else c

/-- Python `str.lower` (character-wise on the modelled domain). -/
def pyLowerString (s : String) : String :=
  String.mk (s.data.map pyLowerChar)

/-- Python's per-character alphanumeric test (`str.isalnum`), faithful on
the Basic Latin and Latin-1 Supplement ranges: ASCII digits and letters,
the Latin-1 letters, and the Latin-1 numeric characters (superscripts and
vulgar fractions) count as alphanumeric. -/
def pyIsAlnumChar (c : Char) : Bool :=
  let n := c.toNat
  (48 ≤ n && n ≤ 57) || (65 ≤ n && n ≤ 90) || (97 ≤ n && n ≤ 122) ||
  n == 170 || n == 178 || n == 179 || n == 181 || n == 185 || n == 186 ||
  (188 ≤ n && n ≤ 190) ||
  (192 ≤ n && n ≤ 255 && n != 215 && n != 247) ||
  n == 956

/-- Python `str.isalnum`: nonempty and every character alphanumeric. -/
def pyIsAlnumString (s : String) : Bool :=
  !s.data.isEmpty && s.data.all pyIsAlnumChar

/-- Python whitespace (ASCII part), as stripped by `str.strip` and by
pydantic's `str_strip_whitespace`. -/
def pyIsSpaceChar (c : Char) : Bool :=
  c == ' ' || c == '\t' || c == '\n' || c == '\r' || c == '\x0b' || c == '\x0c'

/-- Python `str.strip()` (ASCII whitespace). -/
def pyStrip (s : String) : String :=
  String.mk (((s.data.dropWhile pyIsSpaceChar).reverse.dropWhile pyIsSpaceChar).reverse)

/-- Python `s[-n:]` for a nonnegative `n`: the last `n` characters
(the whole string when it is shorter than `n`). -/
def takeRightStr (n : Nat) (s : String) : String :=
  String.mk (s.data.drop (s.data.length - n))

/-- Python `str.lstrip('#')`. -/
def dropHashChars (s : String) : String :=
  String.mk (s.data.dropWhile (fun c => c == '#'))

/-- Hexadecimal digit value, ASCII. -/
def hexDigitVal (c : Char) : Option Nat :=
  if '0' ≤ c ∧ c ≤ '9' then some (c.toNat - 48)
  else if 'a' ≤ c ∧ c ≤ 'f' then some (c.toNat - 87)
  else if 'A' ≤ c ∧ c ≤ 'F' then some (c.toNat - 55)
  else none

/-- Hex digits after the first one: single underscores are allowed, but
only strictly between digits. -/
def hexDigitsCore : List Char → Nat → Option Nat
  | [], acc => some acc
  | '_' :: c :: rest, acc =>
    match hexDigitVal c with
    | some d => hexDigitsCore rest (acc * 16 + d)
    | none => none
  | ['_'], _ => none
  | c :: rest, acc =>
    match hexDigitVal c with
    | some d => hexDigitsCore rest (acc * 16 + d)
    | none => none

/-- A nonempty run of hex digits with single underscores between digits. -/
def hexDigitsRun : List Char → Option Nat
  | [] => none
  | c :: rest =>
    match hexDigitVal c with
    | some d => hexDigitsCore rest d
    | none => none

/-- Python `int(s, 16)`, modelled for ASCII inputs: optional surrounding
whitespace, an optional sign, an optional `0x`/`0X` prefix (one underscore
may directly follow the prefix), then hex digits with single underscores
between digits; anything else is a `ValueError`, modelled as `none`. -/
def pyIntBase16 (s : String) : Option Int :=
  let cs0 := (pyStrip s).data
  let signed : Int × List Char :=
    match cs0 with
    | '+' :: rest => (1, rest)
    | '-' :: rest => (-1, rest)
    | _ => (1, cs0)
  let body : List Char :=
    match signed.2 with
    | '0' :: 'x' :: '_' :: rest => rest
    | '0' :: 'x' :: rest => rest
    | '0' :: 'X' :: '_' :: rest => rest
    | '0' :: 'X' :: rest => rest
    | other => other
  match hexDigitsRun body with
  | some n => some (signed.1 * (n : Int))
  | none => none

/-- Python truthiness of an optional string (`None` and `""` are falsy). -/
def truthyStr : Option String → Bool
  | some s => s != ""
  | none => false

/-- Python truthiness of an optional list (`None` and `[]` are falsy). -/
def truthyList {α : Type} : Option (List α) → Bool
  | some l => !l.isEmpty
  | none => false

/-- Python `a or b` for an optional string `a` and a string default. -/
def pyOrStr (o : Option String) (dflt : String) : String :=
  match o with
  | some s => if s != "" then s else dflt
  | none => dflt

/-- Does the needle match at the head of the haystack? -/
def matchesAt : List Char → List Char → Bool
  | _, [] => true
  | [], _ :: _ => false
  | h :: hs, n :: ns => h == n && matchesAt hs ns

/-- Does the haystack contain the needle as a contiguous run? -/
def containsSubList (nd : List Char) : List Char → Bool
  | [] => nd.isEmpty
  | h :: hs => matchesAt (h :: hs) nd || containsSubList nd hs

/-- Python `nd in hay` for strings. -/
def strContainsSub (hay nd : String) : Bool :=
  containsSubList nd.data hay.data

/-- Python `s.startswith(pre)`. -/
def pyStartsWith (s pre : String) : Bool :=
  matchesAt s.data pre.data

/-- Left-to-right replacement of every non-overlapping occurrence, with
fuel (one unit per consumed character, so the caller's bound suffices);
modelled for nonempty patterns, the only kind the source uses. -/
def replaceListF (old new : List Char) : Nat → List Char → List Char
  | 0, cs => cs
  | _ + 1, [] => []
  | f + 1, c :: rest =>
    if !old.isEmpty && matchesAt (c :: rest) old then
      new ++ replaceListF old new f ((c :: rest).drop old.length)
    else c :: replaceListF old new f rest

/-- Python `s.replace(old, new)` for a nonempty `old`. -/
def pyReplace (s old new : String) : String :=
  String.mk (replaceListF old.data new.data (s.data.length + 1) s.data)

/-! ## JSON values

The registry file, the webhook payloads and the dispatch result dicts are
all JSON-shaped Python values.  Integer numbers carry their value;
non-integer numbers carry their lexeme (no theorem below inspects one).
Objects keep insertion order, as Python dicts do. -/

inductive Json where
  | null
  | bool (b : Bool)
  | num (n : Int)
  | numNonInt (lexeme : String)
  | str (s : String)
  | arr (elems : List Json)
  | obj (members : List (String × Json))

/-- Python dict assignment `d[k] = v`: update in place when the key
exists (keeping its position), append otherwise. -/
def dictSet {α : Type} (kvs : List (String × α)) (k : String) (v : α) : List (String × α) :=
  if (kvs.lookup k).isSome then
    kvs.map (fun p => if p.1 == k then (k, v) else p)
  else kvs ++ [(k, v)]

/-- Python `del d[k]`. -/
def dictDel {α : Type} (kvs : List (String × α)) (k : String) : List (String × α) :=
  kvs.filter (fun p => p.1 != k)

/-- `d.get(k)` on a decoded JSON object (and `none` on non-objects,
which the callers below never rely on without a prior shape check). -/
def Json.lookupKey : Json → String → Option Json
  | .obj kvs, k => kvs.lookup k
  | _, _ => none

/-! ### Parsing (`json.loads` / `json.load`)

A strict recursive-descent JSON parser over the character list, with
explicit fuel (the fuel bound chosen by `pyJsonLoads` always suffices).
Divergences from CPython are confined to corners no theorem touches:
lone surrogate escapes are rejected, and non-ASCII digits are rejected. -/

/-- JSON insignificant whitespace. -/
def jsonWs (c : Char) : Bool :=
  c == ' ' || c == '\t' || c == '\n' || c == '\r'

def skipWs (cs : List Char) : List Char :=
  cs.dropWhile jsonWs

/-- Four hex digits, as in a `\uXXXX` escape. -/
def hex4 : List Char → Option (Nat × List Char)
  | a :: b :: c :: d :: rest =>
    match hexDigitVal a, hexDigitVal b, hexDigitVal c, hexDigitVal d with
    | some x, some y, some z, some w => some (((x * 16 + y) * 16 + z) * 16 + w, rest)
    | _, _, _, _ => none
  | _ => none

/-- The body of a JSON string literal, after the opening quote. -/
def parseStringBody : Nat → List Char → List Char → Option (String × List Char)
  | 0, _, _ => none
  | _ + 1, [], _ => none
  | f + 1, c :: rest, acc =>
    if c == '"' then some (String.mk acc.reverse, rest)
    else if c == '\\' then
      match rest with
      | [] => none
      | e :: rest2 =>
        if e == '"' then parseStringBody f rest2 ('"' :: acc)
        else if e == '\\' then parseStringBody f rest2 ('\\' :: acc)
        else if e == '/' then parseStringBody f rest2 ('/' :: acc)
        else if e == 'b' then parseStringBody f rest2 ('\x08' :: acc)
        else if e == 'f' then parseStringBody f rest2 ('\x0c' :: acc)
        else if e == 'n' then parseStringBody f rest2 ('\n' :: acc)
        else if e == 'r' then parseStringBody f rest2 ('\r' :: acc)
        else if e == 't' then parseStringBody f rest2 ('\t' :: acc)
        else if e == 'u' then
          match hex4 rest2 with
          | none => none
          | some (v, rest3) =>
            if v < 55296 ∨ 57343 < v then
              parseStringBody f rest3 (Char.ofNat v :: acc)
            else if v ≤ 56319 then
              match rest3 with
              | '\\' :: 'u' :: rest4 =>
                match hex4 rest4 with
                | some (lo, rest5) =>
                  if 56320 ≤ lo ∧ lo ≤ 57343 then
                    parseStringBody f rest5
                      (Char.ofNat (65536 + (v - 55296) * 1024 + (lo - 56320)) :: acc)
                  else none
                | none => none
              | _ => none
            else none
        else none
    else if c.toNat < 32 then none
    else parseStringBody f rest (c :: acc)

/-- Decimal digit span. -/
def takeDigits : List Char → List Char × List Char
  | [] => ([], [])
  | c :: rest =>
    if '0' ≤ c ∧ c ≤ '9' then
      let p := takeDigits rest
      (c :: p.1, p.2)
    else ([], c :: rest)

def digitsToNat (ds : List Char) : Nat :=
  ds.foldl (fun a c => a * 10 + (c.toNat - 48)) 0

/-- A JSON number literal: `-? int frac? exp?`, strict. -/
def parseNumber (cs : List Char) : Option (Json × List Char) :=
  let signed : Bool × List Char :=
    match cs with
    | '-' :: rest => (true, rest)
    | _ => (false, cs)
  let intPart : Option (List Char × List Char) :=
    match signed.2 with
    | '0' :: rest => some (['0'], rest)
    | c :: rest =>
      if '1' ≤ c ∧ c ≤ '9' then
        let p := takeDigits rest
        some (c :: p.1, p.2)
      else none
    | [] => none
  match intPart with
  | none => none
  | some (ds, rest) =>
    let fracPart : Option (List Char × List Char) :=
      match rest with
      | '.' :: rest2 =>
        let p := takeDigits rest2
        if p.1.isEmpty then none else some ('.' :: p.1, p.2)
      | _ => some ([], rest)
    match fracPart with
    | none => none
    | some (fs, rest2) =>
      let expPart : Option (List Char × List Char) :=
        match rest2 with
        | 'e' :: rest3 =>
          match rest3 with
          | '+' :: rest4 =>
            let p := takeDigits rest4
            if p.1.isEmpty then none else some ('e' :: '+' :: p.1, p.2)
          | '-' :: rest4 =>
            let p := takeDigits rest4
            if p.1.isEmpty then none else some ('e' :: '-' :: p.1, p.2)
          | _ =>
            let p := takeDigits rest3
            if p.1.isEmpty then none else some ('e' :: p.1, p.2)
        | 'E' :: rest3 =>
          match rest3 with
          | '+' :: rest4 =>
            let p := takeDigits rest4
            if p.1.isEmpty then none else some ('E' :: '+' :: p.1, p.2)
          | '-' :: rest4 =>
            let p := takeDigits rest4
            if p.1.isEmpty then none else some ('E' :: '-' :: p.1, p.2)
          | _ =>
            let p := takeDigits rest3
            if p.1.isEmpty then none else some ('E' :: p.1, p.2)
        | _ => some ([], rest2)
      match expPart with
      | none => none
      | some (es, rest3) =>
        if fs.isEmpty ∧ es.isEmpty then
          let v : Int := (digitsToNat ds : Int)
          some (.num (if signed.1 then -v else v), rest3)
        else
          let lex := (if signed.1 then ['-'] else []) ++ ds ++ fs ++ es
          some (.numNonInt (String.mk lex), rest3)

mutual

/-- One JSON value (leading whitespace allowed). -/
def parseValue : Nat → List Char → Option (Json × List Char)
  | 0, _ => none
  | f + 1, cs =>
    match skipWs cs with
    | 'n' :: 'u' :: 'l' :: 'l' :: rest => some (.null, rest)
    | 't' :: 'r' :: 'u' :: 'e' :: rest => some (.bool true, rest)
    | 'f' :: 'a' :: 'l' :: 's' :: 'e' :: rest => some (.bool false, rest)
    | '"' :: rest =>
      match parseStringBody (rest.length + 1) rest [] with
      | some (s, rest2) => some (.str s, rest2)
      | none => none
    | '[' :: rest =>
      match skipWs rest with
      | ']' :: rest2 => some (.arr [], rest2)
      | _ => parseElems f rest []
    | '{' :: rest =>
      match skipWs rest with
      | '}' :: rest2 => some (.obj [], rest2)
      | _ => parseMembers f rest []
    | other => parseNumber other

/-- Comma-separated array elements up to the closing bracket. -/
def parseElems : Nat → List Char → List Json → Option (Json × List Char)
  | 0, _, _ => none
  | f + 1, cs, acc =>
    match parseValue f cs with
    | none => none
    | some (v, rest) =>
      match skipWs rest with
      | ',' :: rest2 => parseElems f rest2 (acc ++ [v])
      | ']' :: rest2 => some (.arr (acc ++ [v]), rest2)
      | _ => none

/-- Comma-separated object members up to the closing brace; duplicate
keys behave as Python dict insertion (last value wins, first position). -/
def parseMembers : Nat → List Char → List (String × Json) → Option (Json × List Char)
  | 0, _, _ => none
  | f + 1, cs, acc =>
    match skipWs cs with
    | '"' :: rest =>
      match parseStringBody (rest.length + 1) rest [] with
      | none => none
      | some (k, rest2) =>
        match skipWs rest2 with
        | ':' :: rest3 =>
          match parseValue f rest3 with
          | none => none
          | some (v, rest4) =>
            let acc2 := dictSet acc k v
            match skipWs rest4 with
            | ',' :: rest5 => parseMembers f rest5 acc2
            | '}' :: rest5 => some (.obj acc2, rest5)
            | _ => none
        | _ => none
    | _ => none

end

/-- Python `json.loads`: parse one document, demand nothing but
whitespace after it. -/
def pyJsonLoads (s : String) : Option Json :=
  match parseValue (2 * s.data.length + 8) s.data with
  | some (j, rest) => if skipWs rest = [] then some j else none
  | none => none

/-! ### Serialization (`json.dumps(obj, indent=2)`) -/

/-- Lowercase hex digit, as in Python's `\uXXXX` escapes. -/
def hexDigitChar (n : Nat) : Char :=
  if n < 10 then Char.ofNat (48 + n) else Char.ofNat (87 + n)

def hexPad4 (n : Nat) : String :=
  String.mk [hexDigitChar (n / 4096 % 16), hexDigitChar (n / 256 % 16),
             hexDigitChar (n / 16 % 16), hexDigitChar (n % 16)]

/-- One character of a dumped JSON string, with `ensure_ascii=True`
escaping as Python's `json.dumps` default. -/
def escapeJsonChar (c : Char) : String :=
  if c == '"' then "\\\""
  else if c == '\\' then "\\\\"
  else if c == '\n' then "\\n"
  else if c == '\r' then "\\r"
  else if c == '\t' then "\\t"
  else if c.toNat == 8 then "\\b"
  else if c.toNat == 12 then "\\f"
  else if c.toNat < 32 || 126 < c.toNat then
    if c.toNat < 65536 then "\\u" ++ hexPad4 c.toNat
    else
      "\\u" ++ hexPad4 (55296 + (c.toNat - 65536) / 1024) ++
      "\\u" ++ hexPad4 (56320 + (c.toNat - 65536) % 1024)
  else String.mk [c]

def escapeJsonString (s : String) : String :=
  "\"" ++ String.join (s.data.map escapeJsonChar) ++ "\""

def spacesStr (n : Nat) : String :=
  String.mk (List.replicate n ' ')

mutual

/-- `json.dumps(obj, indent=2)` rendering at an indentation level. -/
def dumpJson : Nat → Json → String
  | _, .null => "null"
  | _, .bool true => "true"
  | _, .bool false => "false"
  | _, .num n => toString n
  | _, .numNonInt lex => lex
  | _, .str s => escapeJsonString s
  | _, .arr [] => "[]"
  | ind, .arr (x :: xs) =>
    "[\n" ++ String.intercalate ",\n"
      ((dumpArrItems ind x xs).map (fun it => spacesStr (ind + 2) ++ it)) ++
    "\n" ++ spacesStr ind ++ "]"
  | _, .obj [] => "\x7b\x7d"
  | ind, .obj (m :: ms) =>
    "\x7b\n" ++ String.intercalate ",\n"
      ((dumpObjItems ind m ms).map (fun it => spacesStr (ind + 2) ++ it)) ++
    "\n" ++ spacesStr ind ++ "\x7d"
termination_by ind j => sizeOf j
decreasing_by all_goals (simp_wf <;> omega)

def dumpArrItems : Nat → Json → List Json → List String
  | ind, x, [] => [dumpJson (ind + 2) x]
  | ind, x, y :: ys => dumpJson (ind + 2) x :: dumpArrItems ind y ys
termination_by ind x xs => sizeOf (x :: xs)
decreasing_by all_goals (simp_wf <;> omega)

def dumpObjItems : Nat → String × Json → List (String × Json) → List String
  | ind, (k, v), [] => [escapeJsonString k ++ ": " ++ dumpJson (ind + 2) v]
  | ind, (k, v), y :: ys =>
    (escapeJsonString k ++ ": " ++ dumpJson (ind + 2) v) :: dumpObjItems ind y ys
termination_by ind m ms => sizeOf (m :: ms)
decreasing_by all_goals (simp_wf <;> omega)

end

/-- `json.dumps(obj, indent=2)`. -/
def jsonDumps2 (j : Json) : String :=
  dumpJson 0 j

/-! ### Python rendering of decoded values (`str()` in f-strings) -/

mutual

/-- Python `repr` of a JSON-decoded value (string escaping inside `repr`
is simplified to plain quoting; no theorem below renders a container). -/
def pyReprJson : Json → String
  | .null => "None"
  | .bool true => "True"
  | .bool false => "False"
  | .num n => toString n
  | .numNonInt lex => lex
  | .str s => "\x27" ++ s ++ "\x27"
  | .arr xs => "[" ++ String.intercalate ", " (pyReprList xs) ++ "]"
  | .obj kvs => "\x7b" ++ String.intercalate ", " (pyReprMembers kvs) ++ "\x7d"

def pyReprList : List Json → List String
  | [] => []
  | x :: xs => pyReprJson x :: pyReprList xs

def pyReprMembers : List (String × Json) → List String
  | [] => []
  | m :: xs => ("\x27" ++ m.1 ++ "\x27: " ++ pyReprJson m.2) :: pyReprMembers xs

end

/-- Python `str()` of a JSON-decoded value, as an f-string interpolates
it: strings unchanged, everything else via `repr`-like rendering. -/
def pyStrJson : Json → String
  | .str s => s
  | j => pyReprJson j

/-- Python truthiness of a JSON-decoded value (`if result["success"]:`);
non-integer numbers do not occur in the dicts this code inspects. -/
def jsonTruthy : Json → Bool
  | .null => false
  | .bool b => b
  | .num n => n != 0
  | .numNonInt _ => true
  | .str s => s != ""
  | .arr l => !l.isEmpty
  | .obj l => !l.isEmpty

/-! ## Exceptions

The exception kinds the source can observe: `httpx.HTTPStatusError`,
`httpx.TimeoutException`, `httpx.ConnectError` (all tested by
`_handle_error`), plus `json.JSONDecodeError`, `IOError`/`OSError` and
`AttributeError`, which reach it through the generic fallback. -/

inductive PyExn where
  | httpStatusError (status : Nat)
  | timeoutException (msg : String)
  | connectError (msg : String)
  | jsonDecodeError (msg : String)
  | unicodeDecodeError (msg : String)
  | ioError (msg : String)
  | attributeError (msg : String)
deriving DecidableEq

def pyExnTypeName : PyExn → String
  | .httpStatusError _ => "HTTPStatusError"
  | .timeoutException _ => "TimeoutException"
  | .connectError _ => "ConnectError"
  | .jsonDecodeError _ => "JSONDecodeError"
  | .unicodeDecodeError _ => "UnicodeDecodeError"
  | .ioError _ => "OSError"
  | .attributeError _ => "AttributeError"

def pyExnMessage : PyExn → String
  | .httpStatusError status => toString status
  | .timeoutException m => m
  | .connectError m => m
  | .jsonDecodeError m => m
  | .unicodeDecodeError m => m
  | .ioError m => m
  | .attributeError m => m

/-- `_handle_error`: the fixed error-formatting table. -/
def handle_error (e : PyExn) : String :=
  match e with
  | .httpStatusError status =>
    if status = 400 then
      "Error: Bad request. Check that the message content is valid and within Discord\x27s limits."
    else if status = 401 then
      "Error: Unauthorized. The webhook URL may be invalid or expired."
    else if status = 403 then
      "Error: Forbidden. The webhook may have been deleted or you don\x27t have permission."
    else if status = 404 then
      "Error: Webhook not found. The webhook URL may be invalid or deleted."
    else if status = 429 then
      "Error: Rate limited. Too many requests. Please wait before sending more messages."
    else "Error: Discord API returned status " ++ toString status
  | .timeoutException _ =>
    "Error: Request timed out. Discord may be experiencing issues. Please try again."
  | .connectError _ =>
    "Error: Could not connect to Discord. Check your internet connection."
  | e2 => "Error: " ++ pyExnTypeName e2 ++ ": " ++ pyExnMessage e2

/-! ## Dispatch client (`_send_webhook_message`)

The outbound POST is replaced by an oracle: either an exception raised by
the transport or the `HttpResponse` the server returned.  The function
yields the payload it posts together with the result dict (or the
exception that escapes it). -/

structure HttpResponse where
  status_code : Nat
  text : String

structure WebhookPayload where
  content : Option String
  username : Option String
  avatar_url : Option String
  embeds : Option (List Json)

/-- The payload dict: each key is set only when its argument is truthy. -/
def buildWebhookPayload (content username avatar_url : Option String)
    (embeds : Option (List Json)) : WebhookPayload :=
  { content := if truthyStr content then content else none,
    username := if truthyStr username then username else none,
    avatar_url := if truthyStr avatar_url then avatar_url else none,
    embeds := if truthyList embeds then embeds else none }

/-- `_send_webhook_message`: status 204 and 200 are successes; any other
status produces a failure dict whose `error` is the response body's
`message` field when the body parses as a JSON object, else the raw body
text (`.get` on a non-object raises `AttributeError`; a 200 body that is
nonempty but unparsable raises `JSONDecodeError` from `response.json()`). -/
def send_webhook_message (content username avatar_url : Option String)
    (embeds : Option (List Json)) (http : Except PyExn HttpResponse) :
    WebhookPayload × Except PyExn Json :=
  let payload := buildWebhookPayload content username avatar_url embeds
  match http with
  | .error e => (payload, .error e)
  | .ok resp =>
    if resp.status_code = 204 then
      (payload, .ok (.obj [("success", .bool true), ("status_code", .num 204),
                           ("message", .str "Message sent successfully")]))
    else if resp.status_code = 200 then
      if resp.text != "" then
        match pyJsonLoads resp.text with
        | some body =>
          (payload, .ok (.obj [("success", .bool true), ("status_code", .num 200),
                               ("message", .str "Message sent successfully"),
                               ("response", body)]))
        | none => (payload, .error (.jsonDecodeError "Expecting value"))
      else
        (payload, .ok (.obj [("success", .bool true), ("status_code", .num 200),
                             ("message", .str "Message sent successfully"),
                             ("response", .null)]))
    else
      match pyJsonLoads resp.text with
      | some (.obj kvs) =>
        (payload, .ok (.obj [("success", .bool false),
                             ("status_code", .num (resp.status_code : Int)),
                             ("error", (kvs.lookup "message").getD (.str resp.text))]))
      | some _ => (payload, .error (.attributeError "no attribute get"))
      | none =>
        (payload, .ok (.obj [("success", .bool false),
                             ("status_code", .num (resp.status_code : Int)),
                             ("error", .str resp.text)]))

/-! ## Webhook registry

`webhooks.json` decodes to a dict of per-webhook dicts.  A stored entry
always carries the three keys `discord_add_webhook` writes; `none` models
a JSON `null` value (missing keys are not modelled). -/

structure StoredWebhook where
  url : Option String
  description : Option String
  added_at : Option String

abbrev Registry := List (String × StoredWebhook)

/-- `_get_webhook_url`: lowercase the name, direct key lookup, then the
entry's `url` value. -/
def get_webhook_url (reg : Registry) (name : String) : Option String :=
  match reg.lookup (pyLowerString name) with
  | some w => w.url
  | none => none

/-- The registry file as `_load_webhooks` finds it: absent, unreadable
(an `IOError` on open/read), bytes that fail text decoding when the
text-mode `read` inside `json.load` runs (`UnicodeDecodeError`, a
`ValueError`), or successfully decoded text.  CPython's recursion limit
(`RecursionError` on pathologically nested documents) is not modelled:
the parser here is total. -/
inductive FileState where
  | missing
  | readFailure (msg : String)
  | undecodable (msg : String)
  | contents (text : String)

/-- The body of `_load_webhooks` before its `except` clause. -/
def load_webhooks_body : FileState → Except PyExn Json
  | .missing => .ok (Json.obj [])
  | .readFailure m => .error (.ioError m)
  | .undecodable m => .error (.unicodeDecodeError m)
  | .contents s =>
    match pyJsonLoads s with
    | some j => .ok j
    | none => .error (.jsonDecodeError "Expecting value")

/-- The exception classes named in `except (json.JSONDecodeError, IOError)`:
`UnicodeDecodeError` is a `ValueError`, a subclass of neither, so it is
not caught. -/
def caughtByLoad : PyExn → Bool
  | .jsonDecodeError _ => true
  | .ioError _ => true
  | _ => false

/-- `_load_webhooks`: missing file gives the empty dict, the caught
exception classes give the empty dict, and any other exception
propagates to the caller. -/
def load_webhooks (fs : FileState) : Except PyExn Json :=
  match load_webhooks_body fs with
  | .ok j => .ok j
  | .error e => if caughtByLoad e then .ok (Json.obj []) else .error e

/-! ## Input validation (pydantic models) -/

/-- `AddWebhookInput.validate_name`'s sanitization:
`v.lower().replace(' ', '_')`. -/
def sanitizeName (v : String) : String :=
  String.mk ((pyLowerString v).data.map (fun c => if c == ' ' then '_' else c))

/-- `AddWebhookInput.validate_name`: sanitize, then require
`sanitized.replace('_', '').isalnum()`. -/
def validate_name (v : String) : Except String String :=
  let sanitized := sanitizeName v
  if pyIsAlnumString (String.mk (sanitized.data.filter (fun c => c != '_'))) then
    Except.ok sanitized
  else
    Except.error "Webhook name must contain only alphanumeric characters and spaces/underscores"

/-- The validation pipeline of `AddWebhookInput.url`: pydantic strips
whitespace (`str_strip_whitespace=True` in `model_config`), enforces
`min_length=50` and `max_length=300`, then runs `validate_webhook_url`. -/
def validateUrlField (raw : String) : Except String String :=
  let v := pyStrip raw
  if v.length < 50 then Except.error "String should have at least 50 characters"
  else if 300 < v.length then Except.error "String should have at most 300 characters"
  else if !(pyStartsWith v "https://discord.com/api/webhooks/") &&
          !(pyStartsWith v "https://discordapp.com/api/webhooks/") then
    Except.error "Invalid Discord webhook URL. Must start with \x27https://discord.com/api/webhooks/\x27 or \x27https://discordapp.com/api/webhooks/\x27"
  else Except.ok v

def isOkE {ε α : Type} : Except ε α → Bool
  | .ok _ => true
  | .error _ => false

/-! ## Enums and input records -/

inductive ResponseFormat where
  | markdown
  | json
deriving DecidableEq

inductive AnnouncementStyle where
  | release
  | hotfix
  | beta
  | custom
deriving DecidableEq

structure SendMessageInput where
  webhook_name : String
  content : String
  username : Option String
  avatar_url : Option String
  response_format : ResponseFormat

structure SendAnnouncementInput where
  webhook_name : String
  version : String
  headline : String
  changes : List String
  download_url : Option String
  style : AnnouncementStyle
  beta_warning : Bool
  use_embed : Bool
  embed_color : Option String
  thumbnail_url : Option String
  footer_text : Option String
  username : Option String
  response_format : ResponseFormat

/-! ## Message formatter -/

/-- The style emoji table (identical in `_format_announcement` and
`_build_announcement_embed`; `.get(style, package)` is total on the enum). -/
def emoji_map : AnnouncementStyle → String
  | .release => "📦"
  | .hotfix => "🚨"
  | .beta => "🧪"
  | .custom => "📢"

/-- The style color table of `_build_announcement_embed`. -/
def color_map : AnnouncementStyle → Int
  | .release => 0x57F287
  | .hotfix => 0xED4245
  | .beta => 0xFEE75C
  | .custom => 0x5865F2

/-- The per-change line of `_format_announcement`'s loop: prefix an arrow
unless the change starts with `→` or `->`; otherwise replace every `->`. -/
def announcementChangeLine (change : String) : String :=
  if !(pyStartsWith change "→") && !(pyStartsWith change "->") then "→ " ++ change
  else pyReplace change "->" "→"

/-- `_format_announcement`. -/
def format_announcement (version headline : String) (changes : List String)
    (download_url : Option String) (style : AnnouncementStyle)
    (beta_warning : Bool) : String :=
  let lines := [emoji_map style ++ " **" ++ version ++ "** is live!", "", headline, ""]
  let lines := lines ++ (if !changes.isEmpty then changes.map announcementChangeLine else [])
  let lines := lines ++ (if beta_warning then ["", "⚠️ Beta — back up your world before updating."] else [])
  let lines := lines ++ (if truthyStr download_url then ["🔗 " ++ download_url.getD ""] else [])
  String.intercalate "\n" lines

/-- The embed color of `_build_announcement_embed`: a truthy
`embed_color` is `lstrip('#')`-ed and parsed as hex, falling back to the
style default on `ValueError`; otherwise the style default. -/
def embedColorValue (style : AnnouncementStyle) (embed_color : Option String) : Int :=
  if truthyStr embed_color then
    match pyIntBase16 (dropHashChars (embed_color.getD "")) with
    | some n => n
    | none => color_map style
  else color_map style

/-- `_build_announcement_embed`: the embed dict, with keys in Python dict
insertion order (`fields` is created by whichever of changes / warning /
download happens first; `now` is `datetime.utcnow().isoformat()`). -/
def build_announcement_embed (version headline : String) (changes : List String)
    (download_url : Option String) (style : AnnouncementStyle) (beta_warning : Bool)
    (embed_color thumbnail_url footer_text : Option String) (now : String) : Json :=
  let color := embedColorValue style embed_color
  let emoji := emoji_map style
  let base : List (String × Json) :=
    [("title", .str (emoji ++ " " ++ version ++ " is live!")),
     ("description", .str headline),
     ("color", .num color),
     ("timestamp", .str (now ++ "Z"))]
  let changesFields : List Json :=
    if !changes.isEmpty then
      [.obj [("name", .str "What\x27s New"),
             ("value", .str (String.intercalate "\n" (changes.map (fun c => "→ " ++ c)))),
             ("inline", .bool false)]]
    else []
  let warnFields : List Json :=
    if beta_warning then
      [.obj [("name", .str "⚠️ Warning"),
             ("value", .str "This is a **beta release**. Back up your world before updating!"),
             ("inline", .bool false)]]
    else []
  let preFields := changesFields ++ warnFields
  let linkFields : List Json :=
    if truthyStr download_url then
      [.obj [("name", .str "🔗 Download"),
             ("value", .str ("[Get it here](" ++ download_url.getD "" ++ ")")),
             ("inline", .bool false)]]
    else []
  let mid : List (String × Json) :=
    if truthyStr download_url then
      if !preFields.isEmpty then
        [("fields", .arr (preFields ++ linkFields)), ("url", .str (download_url.getD ""))]
      else
        [("url", .str (download_url.getD "")), ("fields", .arr linkFields)]
    else
      if !preFields.isEmpty then [("fields", .arr preFields)] else []
  let thumb : List (String × Json) :=
    if truthyStr thumbnail_url then
      [("thumbnail", .obj [("url", .str (thumbnail_url.getD ""))])]
    else []
  let footer : List (String × Json) :=
    [("footer", .obj [("text", .str (pyOrStr footer_text "Release Announcement"))])]
  .obj (base ++ mid ++ thumb ++ footer)

/-! ## Tool façades

Each tool is a pure function of the loaded registry, the validated input,
and the transport oracle; it returns the rendered string together with
the list of payloads handed to the dispatch client (empty when no HTTP
request is attempted). -/

def LIVING_LANDS_LOGO_URL : String :=
  "https://raw.githubusercontent.com/MoshPitCodes/hytale-livinglands/main/.github/assets/logo/hytale-livinglands-logo.png"

def DISCORD_MESSAGE_LIMIT : Nat := 2000

/-- `discord_send_message`. -/
def discord_send_message (reg : Registry) (p : SendMessageInput)
    (http : Except PyExn HttpResponse) : String × List WebhookPayload :=
  match get_webhook_url reg p.webhook_name with
  | none =>
    let available := reg.map (fun q => q.1)
    if !available.isEmpty then
      ("Error: Webhook \x27" ++ p.webhook_name ++ "\x27 not found. Available webhooks: " ++
       String.intercalate ", " available ++ ". Use discord_add_webhook to add a new one.", [])
    else
      ("Error: Webhook \x27" ++ p.webhook_name ++
       "\x27 not found. No webhooks configured. Use discord_add_webhook to add one first.", [])
  | some _url =>
    let sent := send_webhook_message (some p.content) p.username p.avatar_url none http
    match sent.2 with
    | .error e => (handle_error e, [sent.1])
    | .ok result =>
      if p.response_format = ResponseFormat.json then
        (jsonDumps2 result, [sent.1])
      else if jsonTruthy ((result.lookupKey "success").getD .null) then
        ("Message sent successfully to \x27" ++ p.webhook_name ++ "\x27 webhook.", [sent.1])
      else
        ("Error: Failed to send message. " ++
         pyStrJson ((result.lookupKey "error").getD (.str "Unknown error")), [sent.1])

/-- The preview lines one embed field contributes in the markdown branch
of `discord_send_announcement`. -/
def embedFieldPreviewLines (f : Json) : List String :=
  ["**" ++ pyStrJson ((f.lookupKey "name").getD .null) ++ "**",
   pyStrJson ((f.lookupKey "value").getD .null),
   ""]

def embedFieldsPreview : Json → List String
  | .arr fields => (fields.map embedFieldPreviewLines).flatten
  | _ => []

/-- `discord_send_announcement`. -/
def discord_send_announcement (reg : Registry) (p : SendAnnouncementInput)
    (http : Except PyExn HttpResponse) (now : String) : String × List WebhookPayload :=
  match get_webhook_url reg p.webhook_name with
  | none =>
    let available := reg.map (fun q => q.1)
    if !available.isEmpty then
      ("Error: Webhook \x27" ++ p.webhook_name ++ "\x27 not found. Available webhooks: " ++
       String.intercalate ", " available, [])
    else
      ("Error: Webhook \x27" ++ p.webhook_name ++
       "\x27 not found. No webhooks configured. Use discord_add_webhook first.", [])
  | some _url =>
    if p.use_embed then
      let thumbnail := pyOrStr p.thumbnail_url LIVING_LANDS_LOGO_URL
      let embed := build_announcement_embed p.version p.headline p.changes p.download_url
        p.style p.beta_warning p.embed_color (some thumbnail) p.footer_text now
      let sent := send_webhook_message none p.username none (some [embed]) http
      match sent.2 with
      | .error e => (handle_error e, [sent.1])
      | .ok result =>
        if p.response_format = ResponseFormat.json then
          (jsonDumps2 (.obj [("result", result), ("embed", embed), ("format", .str "embed")]),
           [sent.1])
        else if jsonTruthy ((result.lookupKey "success").getD .null) then
          let preview := String.intercalate "\n"
            (["**" ++ pyStrJson ((embed.lookupKey "title").getD .null) ++ "**",
              pyStrJson ((embed.lookupKey "description").getD .null),
              ""] ++ embedFieldsPreview ((embed.lookupKey "fields").getD (.arr [])))
          ("Embed announcement sent successfully!\n\n**Preview:**\n" ++ preview, [sent.1])
        else
          ("Error: Failed to send announcement. " ++
           pyStrJson ((result.lookupKey "error").getD (.str "Unknown error")), [sent.1])
    else
      let announcement := format_announcement p.version p.headline p.changes
        p.download_url p.style p.beta_warning
      if DISCORD_MESSAGE_LIMIT < announcement.length then
        ("Error: Announcement is too long (" ++ toString announcement.length ++
         " chars). Discord limit is " ++ toString DISCORD_MESSAGE_LIMIT ++
         " characters. Reduce the number of changes or shorten descriptions.", [])
      else
        let sent := send_webhook_message (some announcement) p.username none none http
        match sent.2 with
        | .error e => (handle_error e, [sent.1])
        | .ok result =>
          if p.response_format = ResponseFormat.json then
            (jsonDumps2 (.obj [("result", result),
                               ("announcement_preview", .str announcement),
                               ("character_count", .num (announcement.length : Int)),
                               ("format", .str "plain_text")]), [sent.1])
          else if jsonTruthy ((result.lookupKey "success").getD .null) then
            ("Announcement sent successfully!\n\n**Preview:**\n```\n" ++ announcement ++ "\n```",
             [sent.1])
          else
            ("Error: Failed to send announcement. " ++
             pyStrJson ((result.lookupKey "error").getD (.str "Unknown error")), [sent.1])

/-- `discord_add_webhook`, after input validation: `name` and `url` are
the values produced by `validate_name` / the url pipeline, and `now` is
`datetime.now().isoformat()`. -/
def discord_add_webhook (reg : Registry) (name url : String)
    (description : Option String) (now : String) : Registry × String :=
  let is_update := (reg.lookup name).isSome
  let reg2 := dictSet reg name { url := some url, description := description, added_at := some now }
  (reg2, "Webhook \x27" ++ name ++ "\x27 " ++ (if is_update then "updated" else "added") ++
   " successfully. You can now use it with discord_send_message or discord_send_announcement.")

/-- `discord_remove_webhook`. -/
def discord_remove_webhook (reg : Registry) (name : String) : Registry × String :=
  let name_lower := pyLowerString name
  if (reg.lookup name_lower).isSome then
    (dictDel reg name_lower, "Webhook \x27" ++ name ++ "\x27 removed successfully.")
  else
    let available := reg.map (fun q => q.1)
    if !available.isEmpty then
      (reg, "Error: Webhook \x27" ++ name ++ "\x27 not found. Available webhooks: " ++
       String.intercalate ", " available)
    else
      (reg, "Error: Webhook \x27" ++ name ++ "\x27 not found. No webhooks configured.")

/-- `url_hint`: the last 8 characters behind an ellipsis, or the whole
URL when it is at most 8 characters long. -/
def webhookUrlHint (url : String) : String :=
  if 8 < url.length then "..." ++ takeRightStr 8 url else url

/-- Python `str()` of `config.get(key, default)` in the markdown branch:
`discord_add_webhook` always writes the key, so the `.get` default never
fires and a stored `null` renders as `None`. -/
def renderOptNone (o : Option String) : String :=
  match o with
  | some s => s
  | none => "None"

/-- One webhook's entry in the sanitized JSON output of
`discord_list_webhooks`. -/
def sanitizedEntry (c : StoredWebhook) : Json :=
  .obj [("description", match c.description with | some s => .str s | none => .null),
        ("url_hint", .str (webhookUrlHint (c.url.getD ""))),
        ("added_at", match c.added_at with | some s => .str s | none => .null)]

/-- One webhook's lines in the markdown output of `discord_list_webhooks`. -/
def webhookMarkdownLines (name : String) (c : StoredWebhook) : List String :=
  ["## " ++ name,
   "- **Description**: " ++ renderOptNone c.description,
   "- **URL hint**: `" ++ webhookUrlHint (c.url.getD "") ++ "`",
   "- **Added**: " ++ renderOptNone c.added_at,
   ""]

/-- `discord_list_webhooks`. -/
def discord_list_webhooks (reg : Registry) (response_format : ResponseFormat) : String :=
  if reg.isEmpty then "No webhooks configured. Use discord_add_webhook to add one."
  else if response_format = ResponseFormat.json then
    let sanitized := reg.foldl (fun acc q => dictSet acc q.1 (sanitizedEntry q.2)) []
    jsonDumps2 (.obj sanitized)
  else
    String.intercalate "\n"
      (["# Configured Discord Webhooks", ""] ++
       (reg.map (fun q => webhookMarkdownLines q.1 q.2)).flatten)

/-! ## Spec-side predicates and relations used by the claims -/

/-- The character class `[a-z0-9_]` named by the specification. -/
def isSlugChar (c : Char) : Bool :=
  ('a' ≤ c && c ≤ 'z') || ('0' ≤ c && c ≤ '9') || c == '_'

/-- Two stored entries that agree everywhere except possibly in the part
of the URL before its last 8 characters, both URLs longer than 8. -/
def relatedEntryB (a b : String × StoredWebhook) : Bool :=
  a.1 == b.1 && a.2.description == b.2.description && a.2.added_at == b.2.added_at &&
  (match a.2.url, b.2.url with
   | some u1, some u2 =>
     decide (8 < u1.length) && decide (8 < u2.length) &&
     takeRightStr 8 u1 == takeRightStr 8 u2
   | _, _ => false)

/-- Two registries that differ only in URL prefixes (before the last 8
characters), entrywise. -/
def relatedRegistries : Registry → Registry → Bool
  | [], [] => true
  | a :: r1, b :: r2 => relatedEntryB a b && relatedRegistries r1 r2
  | _, _ => false

/-! ## Shared lemmas -/

theorem toNat_ofNat_of_valid (n : Nat) (h : n < 55296) : (Char.ofNat n).toNat = n := by
  have hv : n.isValidChar := Or.inl h
  simp [Char.ofNat, hv, Char.ofNatAux, Char.toNat, UInt32.toNat, BitVec.toNat_ofNatLt]

theorem lookup_map_upd {α : Type} (kvs : List (String × α)) (k : String) (v : α) :
    (kvs.map (fun p => if p.1 == k then (k, v) else p)).lookup k =
      (kvs.lookup k).map (fun _ => v) := by
  induction kvs with
  | nil => simp
  | cons a t ih =>
    obtain ⟨ka, va⟩ := a
    simp only [List.map_cons]
    by_cases h : ka = k
    · subst h
      rw [show (if ((ka, va).1 == ka) = true then (ka, v) else (ka, va)) = (ka, v) from by simp]
      rw [List.lookup_cons, List.lookup_cons]
      simp
    · have hb2 : (k == ka) = false := by simp [Ne.symm h]
      rw [if_neg (by simp [h])]
      rw [List.lookup_cons, List.lookup_cons]
      simp only [hb2]
      exact ih

theorem lookup_append_right {α : Type} (l1 l2 : List (String × α)) (k : String)
    (h : l1.lookup k = none) : (l1 ++ l2).lookup k = l2.lookup k := by
  induction l1 with
  | nil => simp
  | cons a t ih =>
    obtain ⟨ka, va⟩ := a
    rw [List.cons_append, List.lookup_cons]
    rw [List.lookup_cons] at h
    cases hbe : (k == ka) with
    | true => simp [hbe] at h
    | false =>
      simp only [hbe] at h ⊢
      exact ih h

theorem lookup_dictSet_self {α : Type} (kvs : List (String × α)) (k : String) (v : α) :
    (dictSet kvs k v).lookup k = some v := by
  unfold dictSet
  by_cases h : (kvs.lookup k).isSome
  · rw [if_pos h, lookup_map_upd]
    obtain ⟨w, hw⟩ := Option.isSome_iff_exists.mp h
    simp [hw]
  · rw [if_neg h, lookup_append_right _ _ _ (Option.not_isSome_iff_eq_none.mp h)]
    simp

theorem lookup_dictDel_self {α : Type} (kvs : List (String × α)) (k : String) :
    (dictDel kvs k).lookup k = none := by
  induction kvs with
  | nil => simp [dictDel]
  | cons a t ih =>
    obtain ⟨ka, va⟩ := a
    by_cases h : ka = k
    · subst h
      simpa [dictDel, List.filter_cons] using ih
    · have hb2 : (k == ka) = false := by simp [Ne.symm h]
      simpa [dictDel, List.filter_cons, h, List.lookup_cons, hb2] using ih

instance instDecEqExcept : DecidableEq (Except String String)
  | .ok a, .ok b =>
    if h : a = b then .isTrue (by rw [h]) else .isFalse (by intro hc; cases hc; exact h rfl)
  | .error a, .error b =>
    if h : a = b then .isTrue (by rw [h]) else .isFalse (by intro hc; cases hc; exact h rfl)
  | .ok _, .error _ => .isFalse (by intro hc; cases hc)
  | .error _, .ok _ => .isFalse (by intro hc; cases hc)

theorem pyLowerChar_ne_space {c : Char} (h : c ≠ ' ') : pyLowerChar c ≠ ' ' := by
  intro hc
  unfold pyLowerChar at hc
  have hsp : Char.toNat ' ' = 32 := rfl
  split at hc
  · rename_i h1
    have h2 := congrArg Char.toNat hc
    rw [toNat_ofNat_of_valid _ (by omega)] at h2
    omega
  · split at hc
    · rename_i h1 h2
      have h3 := congrArg Char.toNat hc
      rw [toNat_ofNat_of_valid _ (by omega)] at h3
      omega
    · split at hc
      · exact absurd hc (by decide)
      · exact h hc

theorem sanitizeName_of_no_space {v : String} (h : ∀ c ∈ v.data, c ≠ ' ') :
    sanitizeName v = pyLowerString v := by
  unfold sanitizeName
  have hmap : ∀ c ∈ (pyLowerString v).data, (if c == ' ' then '_' else c) = c := by
    intro c hc
    unfold pyLowerString at hc
    rw [show (String.mk (v.data.map pyLowerChar)).data = v.data.map pyLowerChar from rfl] at hc
    obtain ⟨d, hd, hdc⟩ := List.mem_map.mp hc
    have : c ≠ ' ' := hdc ▸ pyLowerChar_ne_space (h d hd)
    simp [this]
  rw [List.map_congr_left hmap]
  simp

theorem validate_name_ok_eq {v s : String} (hval : validate_name v = Except.ok s) :
    s = sanitizeName v := by
  simp only [validate_name] at hval
  split at hval
  · exact (Except.ok.injEq _ _ ▸ hval.symm : _)
  · exact absurd hval (by simp)

theorem str_length_append : ∀ (a b : String), (a ++ b).length = a.length + b.length
  | ⟨la⟩, ⟨lb⟩ => by
    show (String.mk (la ++ lb)).length = _
    simp

theorem format_announcement_single (v h c : String) (st : AnnouncementStyle) :
    format_announcement v h [c] none st false =
      (((emoji_map st ++ " **" ++ v ++ "** is live!") ++ "\n" ++ "") ++ "\n" ++ h) ++ "\n" ++ "" ++
        "\n" ++ announcementChangeLine c := by
  simp [format_announcement, truthyStr, String.intercalate, String.intercalate.go]

theorem str_data_append : ∀ (a b : String), (a ++ b).data = a.data ++ b.data
  | ⟨_⟩, ⟨_⟩ => rfl

theorem str_append_ne_empty : ∀ (s : String), ("#" ++ s) ≠ ""
  | ⟨l⟩ => by
    show String.mk ('#' :: l) ≠ String.mk []
    intro hc
    injection hc with h
    exact List.noConfusion h

theorem lookup_color_prefix (c : Int) (j1 j2 j4 : Json) (rest : List (String × Json)) :
    List.lookup "color"
      ([("title", j1), ("description", j2), ("color", Json.num c), ("timestamp", j4)] ++ rest) =
      some (Json.num c) := rfl

theorem embed_lookup_color (v h : String) (cs : List String) (d : Option String)
    (st : AnnouncementStyle) (bw : Bool) (ec th ft : Option String) (now : String) :
    (build_announcement_embed v h cs d st bw ec th ft now).lookupKey "color" =
      some (.num (embedColorValue st ec)) := by
  simp only [build_announcement_embed, Json.lookupKey]
  rw [List.append_assoc, List.append_assoc]
  exact lookup_color_prefix _ _ _ _ _

theorem send_webhook_message_fst (c un av : Option String) (em : Option (List Json))
    (http : Except PyExn HttpResponse) :
    (send_webhook_message c un av em http).1 = buildWebhookPayload c un av em := by
  unfold send_webhook_message
  cases http with
  | error e => rfl
  | ok resp =>
    dsimp only
    split
    · rfl
    · split
      · split
        · split <;> rfl
        · rfl
      · split <;> rfl

/-! ## Claims -/

/-- C1 (amended): after a valid `add-webhook(name, ...)`, looking up by
the same name returns the stored URL whenever the name contains no
spaces; in general the lookup succeeds for exactly the query strings
that lowercase to the stored sanitized key (a name with spaces is stored
under its space-to-underscore form, so looking up by the original spaced
name finds nothing); and `remove-webhook(name)` followed by a lookup of
the same name always returns absent. -/
theorem C1_add_get_remove_get :
    (∀ (reg : Registry) (name url : String) (description : Option String) (now s : String),
       validate_name name = Except.ok s → (∀ c ∈ name.data, c ≠ ' ') →
       get_webhook_url (discord_add_webhook reg s url description now).1 name = some url) ∧
    (∀ (reg : Registry) (name url : String) (description : Option String) (now s q : String),
       validate_name name = Except.ok s → pyLowerString q = s →
       get_webhook_url (discord_add_webhook reg s url description now).1 q = some url) ∧
    (∀ (reg : Registry) (name : String),
       get_webhook_url (discord_remove_webhook reg name).1 name = none) := by
  refine ⟨?_, ?_, ?_⟩
  · intro reg name url description now s hval hsp
    have hs := validate_name_ok_eq hval
    subst hs
    simp only [discord_add_webhook, get_webhook_url]
    rw [show pyLowerString name = sanitizeName name from (sanitizeName_of_no_space hsp).symm]
    rw [lookup_dictSet_self]
  · intro reg name url description now s q hval hq
    have hs := validate_name_ok_eq hval
    subst hs
    simp only [discord_add_webhook, get_webhook_url]
    rw [hq, lookup_dictSet_self]
  · intro reg name
    simp only [discord_remove_webhook, get_webhook_url]
    by_cases h : (List.lookup (pyLowerString name) reg).isSome = true
    · rw [if_pos h, lookup_dictDel_self]
    · rw [if_neg h]
      have hn : List.lookup (pyLowerString name) reg = none :=
        Option.not_isSome_iff_eq_none.mp (by simpa using h)
      have hfst : ∀ (b : Bool) (s1 s2 : String),
          (if b = true then (reg, s1) else (reg, s2)).1 = reg := by
        intro b s1 s2
        cases b <;> rfl
      rw [hfst, hn]

/-- C1 counterexample: the name `"A B"` passes add-webhook validation
(with a fully valid URL), is stored under the sanitized key `"a_b"`, and
a subsequent lookup by the very same name `"A B"` returns absent, not the
stored URL. -/
theorem C1_counterexample :
    validate_name "A B" = Except.ok "a_b" ∧
    validateUrlField "https://discord.com/api/webhooks/12345678901234567" =
      Except.ok "https://discord.com/api/webhooks/12345678901234567" ∧
    get_webhook_url
      (discord_add_webhook [] "a_b" "https://discord.com/api/webhooks/12345678901234567"
        none "2024-01-01T00:00:00").1 "A B" = none := by
  refine ⟨by decide, by decide, by decide⟩

/-- C1 witness: the space-free name `"Releases"` round-trips through add
and get, and remove-then-get returns absent. -/
theorem C1_witness :
    get_webhook_url
      (discord_add_webhook [] "releases" "https://discord.com/api/webhooks/12345678901234567"
        none "2024-01-01T00:00:00").1 "Releases" =
      some "https://discord.com/api/webhooks/12345678901234567" ∧
    get_webhook_url (discord_remove_webhook [("releases",
      ⟨some "https://discord.com/api/webhooks/12345678901234567", none, none⟩)] "Releases").1
      "Releases" = none := by
  refine ⟨C1_add_get_remove_get.1 [] "Releases" _ none "2024-01-01T00:00:00" "releases"
    (by decide) (by decide), C1_add_get_remove_get.2.2 _ "Releases"⟩

/-- C3 (amended): in the plain-text builder, a change starting with
neither the arrow glyph nor `"->"` is emitted as the arrow, a space, and
the change unmodified; a change starting with `"->"` has EVERY occurrence
of `"->"` in it replaced by the arrow glyph (not only the leading one,
as the claim stated); and the builder emits exactly these lines. -/
theorem C3_change_lines :
    (∀ change : String, pyStartsWith change "→" = false → pyStartsWith change "->" = false →
       announcementChangeLine change = "→ " ++ change) ∧
    (∀ change : String, pyStartsWith change "->" = true →
       announcementChangeLine change = pyReplace change "->" "→") ∧
    (∀ (v h change : String) (st : AnnouncementStyle),
       format_announcement v h [change] none st false =
         String.intercalate "\n"
           [emoji_map st ++ " **" ++ v ++ "** is live!", "", h, "", announcementChangeLine change]) := by
  refine ⟨?_, ?_, ?_⟩
  · intro change h1 h2
    simp [announcementChangeLine, h1, h2]
  · intro change h
    simp [announcementChangeLine, h]
  · intro v h change st
    simp [format_announcement, truthyStr]

/-- C3 counterexample: for the change `"-> a -> b"` the builder emits
`"→ a → b"` — the second, non-leading `"->"` is replaced too — not the
`"→ a -> b"` the claim predicts. -/
theorem C3_counterexample :
    announcementChangeLine "-> a -> b" = "→ a → b" ∧ "→ a → b" ≠ "→ a -> b" := by
  refine ⟨by decide, by decide⟩

/-- C3 witness: the spec's own example inputs behave as documented. -/
theorem C3_witness :
    announcementChangeLine "Fixed bug" = "→ Fixed bug" ∧
    announcementChangeLine "-> Added feature" = "→ Added feature" := by
  refine ⟨C3_change_lines.1 "Fixed bug" (by decide) (by decide), ?_⟩
  rw [C3_change_lines.2.1 "-> Added feature" (by decide)]
  decide

/-- C4 counterexample: the name `"é"` normalizes to `"é"`, whose sole
character is outside `[a-z0-9_]`, yet `validate_name` accepts it, because
Python's `str.isalnum` is Unicode-wide. -/
theorem C4_counterexample :
    validate_name "é" = Except.ok "é" ∧ isSlugChar 'é' = false ∧
    'é' ∈ (sanitizeName "é").data := by
  refine ⟨by decide, by decide, by decide⟩

/-- C4 (amended): add-webhook normalizes the name to lowercase with
spaces converted to underscores, and rejects every name whose
normalization contains a character that is neither an underscore nor
Unicode-alphanumeric; a non-ASCII alphanumeric such as `'é'` is outside
`[a-z0-9_]` but accepted.  The accepted value is always the
normalization. -/
theorem C4_name_validation :
    (∀ v : String, (∀ c ∈ v.data, c.toNat ≤ 255) →
       (∃ c ∈ (sanitizeName v).data, c ≠ '_' ∧ pyIsAlnumChar c = false) →
       validate_name v = Except.error
         "Webhook name must contain only alphanumeric characters and spaces/underscores") ∧
    (∀ v s : String, validate_name v = Except.ok s → s = sanitizeName v) := by
  constructor
  · intro v _hdom hbad
    obtain ⟨c, hc, hne, hna⟩ := hbad
    simp only [validate_name]
    rw [if_neg]
    intro hgood
    have hmem : c ∈ (sanitizeName v).data.filter (fun c => c != '_') :=
      List.mem_filter.mpr ⟨hc, by simp [hne]⟩
    simp only [pyIsAlnumString] at hgood
    have hall := (Bool.and_eq_true _ _ |>.mp hgood).2
    have := (List.all_eq_true.mp hall) c hmem
    rw [hna] at this
    exact Bool.false_ne_true this
  · intro v s hval
    exact validate_name_ok_eq hval

/-- C4 witness: `"bad-name"` is rejected through the amended theorem, and
`"My Hook"` validates to its normalization `"my_hook"`. -/
theorem C4_witness :
    validate_name "bad-name" = Except.error
      "Webhook name must contain only alphanumeric characters and spaces/underscores" ∧
    validate_name "My Hook" = Except.ok "my_hook" ∧ "my_hook" = sanitizeName "My Hook" := by
  refine ⟨C4_name_validation.1 "bad-name" (by decide) ⟨'-', by decide, by decide, by decide⟩,
    by decide, C4_name_validation.2 "My Hook" "my_hook" (by decide)⟩

/-- C5 counterexample: a URL padded with a leading space is accepted by
the add-webhook url pipeline (pydantic strips whitespace before the
checks), although the raw string starts with neither approved prefix. -/
theorem C5_counterexample :
    isOkE (validateUrlField " https://discord.com/api/webhooks/12345678901234567") = true ∧
    pyStartsWith " https://discord.com/api/webhooks/12345678901234567"
      "https://discord.com/api/webhooks/" = false ∧
    pyStartsWith " https://discord.com/api/webhooks/12345678901234567"
      "https://discordapp.com/api/webhooks/" = false := by
  refine ⟨by decide, by decide, by decide⟩

/-- C5 (amended): the url pipeline accepts a string exactly when, after
leading/trailing whitespace is stripped, it starts with one of the two
approved prefixes and its stripped length lies within [50, 300]. -/
theorem C5_url_validator : ∀ s : String,
    isOkE (validateUrlField s) = true ↔
      (50 ≤ (pyStrip s).length ∧ (pyStrip s).length ≤ 300 ∧
       (pyStartsWith (pyStrip s) "https://discord.com/api/webhooks/" = true ∨
        pyStartsWith (pyStrip s) "https://discordapp.com/api/webhooks/" = true)) := by
  intro s
  simp only [validateUrlField]
  split
  · rename_i hlen
    simp only [isOkE]
    constructor
    · intro hh
      exact absurd hh (by simp)
    · intro hcon
      exact absurd hcon.1 (by omega)
  · rename_i hlen1
    split
    · rename_i hlen2
      simp only [isOkE]
      constructor
      · intro hh
        exact absurd hh (by simp)
      · intro hcon
        exact absurd hcon.2.1 (by omega)
    · rename_i hlen2
      split
      · rename_i hpre
        simp only [isOkE]
        constructor
        · intro hh
          exact absurd hh (by simp)
        · intro hcon
          rcases hcon.2.2 with h | h <;>
            simp [h] at hpre
      · rename_i hpre
        simp only [isOkE]
        constructor
        · intro _
          refine ⟨by omega, by omega, ?_⟩
          rcases Bool.eq_false_or_eq_true
              (pyStartsWith (pyStrip s) "https://discord.com/api/webhooks/") with hA | hA
          · exact Or.inl hA
          · rcases Bool.eq_false_or_eq_true
                (pyStartsWith (pyStrip s) "https://discordapp.com/api/webhooks/") with hB | hB
            · exact Or.inr hB
            · exact absurd (by simp [hA, hB]) hpre
        · intro _
          trivial

/-- C6 (confirmed): a plain-text send-announcement whose formatted text
exceeds 2000 characters returns the length error and attempts no
dispatch: the payload list is empty. -/
theorem C6_plain_length_guard :
    ∀ (reg : Registry) (p : SendAnnouncementInput) (http : Except PyExn HttpResponse)
      (now u : String),
      p.use_embed = false →
      get_webhook_url reg p.webhook_name = some u →
      DISCORD_MESSAGE_LIMIT <
        (format_announcement p.version p.headline p.changes p.download_url p.style
          p.beta_warning).length →
      discord_send_announcement reg p http now =
        ("Error: Announcement is too long (" ++
         toString (format_announcement p.version p.headline p.changes p.download_url p.style
           p.beta_warning).length ++
         " chars). Discord limit is " ++ toString DISCORD_MESSAGE_LIMIT ++
         " characters. Reduce the number of changes or shorten descriptions.", []) := by
  intro reg p http now u hemb hlook hlen
  simp only [discord_send_announcement, hlook, hemb, if_false, Bool.false_eq_true]
  rw [if_pos hlen]

/-- C6 witness: a 2001-character change overflows the plain-text limit;
the call returns the length error and dispatches nothing. -/
theorem C6_witness :
    discord_send_announcement [("releases", ⟨some "u", none, none⟩)]
      ⟨"releases", "v1", "big", [String.mk (List.replicate 2001 'a')], none,
        AnnouncementStyle.release, false, false, none, none, none, none, ResponseFormat.markdown⟩
      (Except.ok ⟨204, ""⟩) "2024-01-01T00:00:00" =
      ("Error: Announcement is too long (" ++
       toString (format_announcement "v1" "big" [String.mk (List.replicate 2001 'a')] none
         AnnouncementStyle.release false).length ++
       " chars). Discord limit is " ++ toString DISCORD_MESSAGE_LIMIT ++
       " characters. Reduce the number of changes or shorten descriptions.", []) := by
  refine C6_plain_length_guard _ _ _ _ "u" rfl (by decide) ?_
  rw [format_announcement_single]
  rw [show announcementChangeLine (String.mk (List.replicate 2001 'a')) =
      "→ " ++ String.mk (List.replicate 2001 'a') from by
    rw [announcementChangeLine, if_pos]
    rw [show pyStartsWith (String.mk (List.replicate 2001 'a')) "→" = false from by decide]
    rw [show pyStartsWith (String.mk (List.replicate 2001 'a')) "->" = false from by decide]
    rfl]
  simp only [str_length_append, String.mk_length, List.length_replicate, DISCORD_MESSAGE_LIMIT]
  decide

/-- C10 (confirmed): with use_embed=true and a configured webhook, the
dispatch client is always invoked with exactly the built embed — no
pre-dispatch length check exists on this path, whatever the size of the
changes, headline or version. -/
theorem C10_embed_always_dispatches :
    ∀ (reg : Registry) (p : SendAnnouncementInput) (http : Except PyExn HttpResponse)
      (now u : String),
      p.use_embed = true →
      get_webhook_url reg p.webhook_name = some u →
      (discord_send_announcement reg p http now).2 =
        [buildWebhookPayload none p.username none
          (some [build_announcement_embed p.version p.headline p.changes p.download_url p.style
            p.beta_warning p.embed_color (some (pyOrStr p.thumbnail_url LIVING_LANDS_LOGO_URL))
            p.footer_text now])] := by
  intro reg p http now u hemb hlook
  simp only [discord_send_announcement, hlook, hemb, if_true]
  have hfst := send_webhook_message_fst none p.username none
    (some [build_announcement_embed p.version p.headline p.changes p.download_url p.style
      p.beta_warning p.embed_color (some (pyOrStr p.thumbnail_url LIVING_LANDS_LOGO_URL))
      p.footer_text now]) http
  rcases hS : send_webhook_message none p.username none
      (some [build_announcement_embed p.version p.headline p.changes p.download_url p.style
        p.beta_warning p.embed_color (some (pyOrStr p.thumbnail_url LIVING_LANDS_LOGO_URL))
        p.footer_text now]) http with ⟨pl, res⟩
  rw [hS] at hfst
  dsimp only at hfst ⊢
  subst hfst
  cases res with
  | error e => rfl
  | ok result =>
    dsimp only
    split
    · rfl
    · split <;> rfl

/-- C10 witness: an embed announcement with a 2500-character change is
dispatched — the embed path applies no length check. -/
theorem C10_witness :
    (discord_send_announcement [("releases", ⟨some "u", none, none⟩)]
      ⟨"releases", "v1", "big", [String.mk (List.replicate 2500 'a')], none,
        AnnouncementStyle.release, false, true, none, none, none, none, ResponseFormat.markdown⟩
      (Except.ok ⟨204, ""⟩) "2024-01-01T00:00:00").2 =
      [buildWebhookPayload none none none
        (some [build_announcement_embed "v1" "big" [String.mk (List.replicate 2500 'a')] none
          AnnouncementStyle.release false none (some (pyOrStr none LIVING_LANDS_LOGO_URL))
          none "2024-01-01T00:00:00"])] := by
  exact C10_embed_always_dispatches _ _ _ _ "u" rfl (by decide)

/-- C7 (confirmed): the embed color is the style default when
`embed_color` is absent or fails to parse as hex; a parsable value (with
or without a leading `'#'`, which is stripped before parsing) becomes the
color; and the style defaults are the four fixed literals. -/
theorem C7_embed_color :
    (∀ (v h : String) (cs : List String) (d : Option String) (st : AnnouncementStyle)
       (bw : Bool) (th ft : Option String) (now : String),
       (build_announcement_embed v h cs d st bw none th ft now).lookupKey "color" =
         some (.num (color_map st))) ∧
    (∀ (v h : String) (cs : List String) (d : Option String) (st : AnnouncementStyle)
       (bw : Bool) (th ft : Option String) (now s : String),
       pyIntBase16 (dropHashChars s) = none →
       (build_announcement_embed v h cs d st bw (some s) th ft now).lookupKey "color" =
         some (.num (color_map st))) ∧
    (∀ (v h : String) (cs : List String) (d : Option String) (st : AnnouncementStyle)
       (bw : Bool) (th ft : Option String) (now s : String) (n : Int),
       s ≠ "" → pyIntBase16 (dropHashChars s) = some n →
       (build_announcement_embed v h cs d st bw (some s) th ft now).lookupKey "color" =
         some (.num n)) ∧
    (∀ (v h : String) (cs : List String) (d : Option String) (st : AnnouncementStyle)
       (bw : Bool) (th ft : Option String) (now s : String),
       (build_announcement_embed v h cs d st bw (some ("#" ++ s)) th ft now).lookupKey "color" =
         (build_announcement_embed v h cs d st bw (some s) th ft now).lookupKey "color") ∧
    color_map AnnouncementStyle.release = 0x57F287 ∧
    color_map AnnouncementStyle.hotfix = 0xED4245 ∧
    color_map AnnouncementStyle.beta = 0xFEE75C ∧
    color_map AnnouncementStyle.custom = 0x5865F2 := by
  refine ⟨?_, ?_, ?_, ?_, rfl, rfl, rfl, rfl⟩
  · intro v h cs d st bw th ft now
    rw [embed_lookup_color]
    simp [embedColorValue, truthyStr]
  · intro v h cs d st bw th ft now s hparse
    rw [embed_lookup_color]
    by_cases hs : s = ""
    · simp [embedColorValue, truthyStr, hs]
    · simp [embedColorValue, truthyStr, hs, hparse]
  · intro v h cs d st bw th ft now s n hne hparse
    rw [embed_lookup_color]
    simp [embedColorValue, truthyStr, hne, hparse]
  · intro v h cs d st bw th ft now s
    rw [embed_lookup_color, embed_lookup_color]
    have hdrop : dropHashChars ("#" ++ s) = dropHashChars s := by
      simp only [dropHashChars, str_data_append]
      rfl
    have hne := str_append_ne_empty s
    by_cases hs : s = ""
    · subst hs
      rw [show ("#" ++ "") = "#" from rfl]
      rw [show embedColorValue st (some "#") = color_map st from by
        simp only [embedColorValue, Option.getD_some]
        rw [if_pos (by decide)]
        rw [show pyIntBase16 (dropHashChars "#") = none from by decide]]
      rw [show embedColorValue st (some "") = color_map st from by
        simp only [embedColorValue, Option.getD_some]
        rw [if_neg (by decide)]]
    · simp only [embedColorValue, Option.getD_some]
      rw [if_pos (by simp [truthyStr, hne]), if_pos (by simp [truthyStr, hs]), hdrop]

/-- C7 witness: hotfix with no custom color is the fixed red; an
unparsable custom color falls back to the style default; a parsable
`"#5865F2"` becomes the color. -/
theorem C7_witness :
    (build_announcement_embed "v" "h" [] none AnnouncementStyle.hotfix false none none none
      "T").lookupKey "color" = some (.num 0xED4245) ∧
    (build_announcement_embed "v" "h" [] none AnnouncementStyle.hotfix false (some "not-hex")
      none none "T").lookupKey "color" = some (.num 0xED4245) ∧
    (build_announcement_embed "v" "h" [] none AnnouncementStyle.release false (some "#5865F2")
      none none "T").lookupKey "color" = some (.num 0x5865F2) := by
  refine ⟨C7_embed_color.1 "v" "h" [] none AnnouncementStyle.hotfix false none none "T",
    C7_embed_color.2.1 "v" "h" [] none AnnouncementStyle.hotfix false none none "T" "not-hex"
      (by decide),
    C7_embed_color.2.2.1 "v" "h" [] none AnnouncementStyle.release false none none "T" "#5865F2"
      0x5865F2 (by decide) (by decide)⟩

/-- C8 (amended): a missing file, an unreadable file (IOError), and
malformed JSON each load as the empty registry without raising, and
well-formed JSON is returned as parsed; but the load is NOT raise-free:
a file whose bytes fail text decoding raises `UnicodeDecodeError`, which
the `except (json.JSONDecodeError, IOError)` clause does not catch, and
that exception propagates to the caller — every file state either yields
a value or is such an undecodable state escaping with exactly that
exception. -/
theorem C8_load_behavior :
    load_webhooks FileState.missing = Except.ok (Json.obj []) ∧
    (∀ m, load_webhooks (FileState.readFailure m) = Except.ok (Json.obj [])) ∧
    (∀ s, pyJsonLoads s = none → load_webhooks (FileState.contents s) = Except.ok (Json.obj [])) ∧
    (∀ s j, pyJsonLoads s = some j → load_webhooks (FileState.contents s) = Except.ok j) ∧
    (∀ fs : FileState, (∃ j, load_webhooks fs = Except.ok j) ∨
       ∃ m, fs = FileState.undecodable m ∧
         load_webhooks fs = Except.error (.unicodeDecodeError m)) := by
  refine ⟨rfl, fun m => rfl, ?_, ?_, ?_⟩
  · intro s hp
    simp [load_webhooks, load_webhooks_body, hp, caughtByLoad]
  · intro s j hp
    simp [load_webhooks, load_webhooks_body, hp]
  · intro fs
    cases fs with
    | missing => exact Or.inl ⟨_, rfl⟩
    | readFailure m => exact Or.inl ⟨_, rfl⟩
    | undecodable m => exact Or.inr ⟨m, rfl, rfl⟩
    | contents s =>
      cases hp : pyJsonLoads s with
      | none =>
        exact Or.inl ⟨Json.obj [],
          by simp [load_webhooks, load_webhooks_body, hp, caughtByLoad]⟩
      | some j => exact Or.inl ⟨j, by simp [load_webhooks, load_webhooks_body, hp]⟩

/-- C8 counterexample: an undecodable registry file makes the load
raise — `UnicodeDecodeError` is caught by neither exception class of the
`except` clause and escapes `_load_webhooks`, so corrupt state is not
always treated as "no webhooks configured". -/
theorem C8_counterexample :
    load_webhooks (FileState.undecodable "invalid start byte") =
      Except.error (.unicodeDecodeError "invalid start byte") ∧
    caughtByLoad (.unicodeDecodeError "invalid start byte") = false := by
  exact ⟨rfl, rfl⟩

/-- C8 witness: the malformed document `"not json"` loads as the empty
registry without raising. -/
theorem C8_witness :
    pyJsonLoads "not json" = none ∧
    load_webhooks (FileState.contents "not json") = Except.ok (Json.obj []) := by
  refine ⟨rfl, C8_load_behavior.2.2.1 "not json" rfl⟩

/-- C2 (amended): a dispatch whose response status is neither 204 nor 200
fails (the result dict has success=false and the status), and the
user-facing error string is taken from the response body — its JSON
`message` field when the body parses as an object carrying one, else the
raw body text — not from the fixed status-code table.  That table lives
in `_handle_error` and applies only to raised `httpx.HTTPStatusError`
exceptions, where 400/401/403/404/429 get their tailored messages and
anything else the generic "status N" message. -/
theorem C2_dispatch_error_mapping :
    (∀ (c un av : Option String) (em : Option (List Json)) (resp : HttpResponse) (result : Json),
       resp.status_code ≠ 204 → resp.status_code ≠ 200 →
       (send_webhook_message c un av em (Except.ok resp)).2 = Except.ok result →
       result.lookupKey "success" = some (.bool false) ∧
       result.lookupKey "status_code" = some (.num (resp.status_code : Int))) ∧
    (∀ (reg : Registry) (p : SendMessageInput) (resp : HttpResponse) (u : String),
       get_webhook_url reg p.webhook_name = some u →
       p.response_format = ResponseFormat.markdown →
       resp.status_code ≠ 204 → resp.status_code ≠ 200 →
       pyJsonLoads resp.text = none →
       (discord_send_message reg p (Except.ok resp)).1 =
         "Error: Failed to send message. " ++ resp.text) ∧
    (∀ (reg : Registry) (p : SendMessageInput) (resp : HttpResponse) (u m : String)
       (kvs : List (String × Json)),
       get_webhook_url reg p.webhook_name = some u →
       p.response_format = ResponseFormat.markdown →
       resp.status_code ≠ 204 → resp.status_code ≠ 200 →
       pyJsonLoads resp.text = some (.obj kvs) →
       kvs.lookup "message" = some (.str m) →
       (discord_send_message reg p (Except.ok resp)).1 =
         "Error: Failed to send message. " ++ m) ∧
    handle_error (.httpStatusError 400) =
      "Error: Bad request. Check that the message content is valid and within Discord\x27s limits." ∧
    handle_error (.httpStatusError 401) =
      "Error: Unauthorized. The webhook URL may be invalid or expired." ∧
    handle_error (.httpStatusError 403) =
      "Error: Forbidden. The webhook may have been deleted or you don\x27t have permission." ∧
    handle_error (.httpStatusError 404) =
      "Error: Webhook not found. The webhook URL may be invalid or deleted." ∧
    handle_error (.httpStatusError 429) =
      "Error: Rate limited. Too many requests. Please wait before sending more messages." ∧
    (∀ n : Nat, n ≠ 400 → n ≠ 401 → n ≠ 403 → n ≠ 404 → n ≠ 429 →
       handle_error (.httpStatusError n) = "Error: Discord API returned status " ++ toString n) := by
  refine ⟨?_, ?_, ?_, rfl, rfl, rfl, rfl, rfl, ?_⟩
  · intro c un av em resp result h204 h200 hok
    simp only [send_webhook_message] at hok
    rw [if_neg h204, if_neg h200] at hok
    cases hp : pyJsonLoads resp.text with
    | none =>
      rw [hp] at hok
      dsimp only at hok
      injection hok with hres
      subst hres
      constructor <;> rfl
    | some j =>
      rw [hp] at hok
      cases j with
      | obj kvs =>
        dsimp only at hok
        injection hok with hres
        subst hres
        constructor <;> rfl
      | null => exact absurd hok (by simp)
      | bool b => exact absurd hok (by simp)
      | num n => exact absurd hok (by simp)
      | numNonInt l => exact absurd hok (by simp)
      | str s2 => exact absurd hok (by simp)
      | arr l => exact absurd hok (by simp)
  · intro reg p resp u hlook hfmt h204 h200 hp
    simp only [discord_send_message, hlook]
    simp only [send_webhook_message]
    rw [if_neg h204, if_neg h200, hp]
    dsimp only
    rw [hfmt]
    simp [jsonTruthy, Json.lookupKey, List.lookup_cons, pyStrJson]
  · intro reg p resp u m kvs hlook hfmt h204 h200 hp hmsg
    simp only [discord_send_message, hlook]
    simp only [send_webhook_message]
    rw [if_neg h204, if_neg h200, hp]
    dsimp only
    rw [hfmt, hmsg]
    simp [jsonTruthy, Json.lookupKey, List.lookup_cons, pyStrJson]
  · intro n h1 h2 h3 h4 h5
    simp only [handle_error]
    rw [if_neg h1, if_neg h2, if_neg h3, if_neg h4, if_neg h5]

/-- C2 counterexample: a 429 response whose body message is `"slow down"`
surfaces exactly that body text to the user; the fixed-table phrase
`"Rate limited"` appears nowhere in the operation's output. -/
theorem C2_counterexample :
    (discord_send_message [("hook", ⟨some "u", none, none⟩)]
      ⟨"hook", "hi", none, none, ResponseFormat.markdown⟩
      (Except.ok ⟨429, "\x7b\"message\": \"slow down\"\x7d"⟩)).1 =
      "Error: Failed to send message. slow down" ∧
    strContainsSub "Error: Failed to send message. slow down" "Rate limited" = false := by
  refine ⟨by decide, by decide⟩

/-- C2 witness: a 500 response with a non-JSON body surfaces the raw body
text, and `_handle_error` maps 404, 429 and a generic status as stated. -/
theorem C2_witness :
    (discord_send_message [("hook", ⟨some "u", none, none⟩)]
      ⟨"hook", "hi", none, none, ResponseFormat.markdown⟩
      (Except.ok ⟨500, "oops"⟩)).1 = "Error: Failed to send message. oops" ∧
    handle_error (.httpStatusError 500) = "Error: Discord API returned status " ++ toString 500 := by
  refine ⟨C2_dispatch_error_mapping.2.1 _ _ _ "u" (by decide) rfl (by decide) (by decide) rfl,
    C2_dispatch_error_mapping.2.2.2.2.2.2.2.2 500 (by decide) (by decide) (by decide)
      (by decide) (by decide)⟩

theorem relatedEntry_components {a b : String × StoredWebhook} (h : relatedEntryB a b = true) :
    a.1 = b.1 ∧ sanitizedEntry a.2 = sanitizedEntry b.2 ∧
    webhookMarkdownLines a.1 a.2 = webhookMarkdownLines b.1 b.2 := by
  simp only [relatedEntryB, Bool.and_eq_true] at h
  obtain ⟨⟨⟨hname, hdesc⟩, hadd⟩, hurl⟩ := h
  have hname' : a.1 = b.1 := by simpa using hname
  have hdesc' : a.2.description = b.2.description := by simpa using hdesc
  have hadd' : a.2.added_at = b.2.added_at := by simpa using hadd
  cases ha : a.2.url with
  | none => rw [ha] at hurl; simp at hurl
  | some u1 =>
    cases hb : b.2.url with
    | none => rw [ha, hb] at hurl; simp at hurl
    | some u2 =>
      rw [ha, hb] at hurl
      simp only [Bool.and_eq_true, decide_eq_true_eq, beq_iff_eq] at hurl
      obtain ⟨⟨hl1, hl2⟩, htr⟩ := hurl
      have hhint : webhookUrlHint (a.2.url.getD "") = webhookUrlHint (b.2.url.getD "") := by
        rw [ha, hb]
        simp only [Option.getD_some, webhookUrlHint]
        rw [if_pos hl1, if_pos hl2, htr]
      refine ⟨hname', ?_, ?_⟩
      · simp only [sanitizedEntry, hdesc', hadd', hhint]
      · simp only [webhookMarkdownLines, hname', hdesc', hadd', hhint]

theorem relatedRegistries_maps : ∀ (r1 r2 : Registry), relatedRegistries r1 r2 = true →
    r1.map (fun q => (q.1, sanitizedEntry q.2)) = r2.map (fun q => (q.1, sanitizedEntry q.2)) ∧
    r1.map (fun q => webhookMarkdownLines q.1 q.2) =
      r2.map (fun q => webhookMarkdownLines q.1 q.2) := by
  intro r1
  induction r1 with
  | nil =>
    intro r2 hrel
    cases r2 with
    | nil => exact ⟨rfl, rfl⟩
    | cons b t2 => simp [relatedRegistries] at hrel
  | cons a t ih =>
    intro r2 hrel
    cases r2 with
    | nil => simp [relatedRegistries] at hrel
    | cons b t2 =>
      simp only [relatedRegistries, Bool.and_eq_true] at hrel
      obtain ⟨hab, ht⟩ := hrel
      obtain ⟨hn, hs, hm⟩ := relatedEntry_components hab
      obtain ⟨ihs, ihm⟩ := ih t2 ht
      constructor
      · simp only [List.map_cons, ihs, hn, hs]
      · simp only [List.map_cons, ihm, hm]

/-- C9 (amended): the list-webhooks output, in both formats, depends on
each stored URL only through its last 8 characters, provided every URL is
longer than 8 characters: two registries with the same names,
descriptions and timestamps whose URLs agree on their last 8 characters
(all longer than 8) render identically.  The proviso is necessary: a URL
of exactly 8 characters is rendered in full without the ellipsis prefix,
so it is distinguishable from a longer URL with the same 8-character
suffix. -/
theorem C9_list_redaction : ∀ (r1 r2 : Registry) (fmt : ResponseFormat),
    relatedRegistries r1 r2 = true →
    discord_list_webhooks r1 fmt = discord_list_webhooks r2 fmt := by
  intro r1 r2 fmt hrel
  obtain ⟨hs, hm⟩ := relatedRegistries_maps r1 r2 hrel
  have hemp : r1.isEmpty = r2.isEmpty := by
    have := congrArg List.length hs
    simp only [List.length_map] at this
    cases r1 <;> cases r2 <;> simp_all
  simp only [discord_list_webhooks, hemp]
  by_cases he : r2.isEmpty = true
  · rw [if_pos he, if_pos he]
  · rw [if_neg he, if_neg he]
    by_cases hf : fmt = ResponseFormat.json
    · rw [if_pos hf, if_pos hf]
      have h1 : r1.foldl (fun acc q => dictSet acc q.1 (sanitizedEntry q.2)) [] =
          (r1.map (fun q => (q.1, sanitizedEntry q.2))).foldl
            (fun acc pr => dictSet acc pr.1 pr.2) [] := by
        rw [List.foldl_map]
      have h2 : r2.foldl (fun acc q => dictSet acc q.1 (sanitizedEntry q.2)) [] =
          (r2.map (fun q => (q.1, sanitizedEntry q.2))).foldl
            (fun acc pr => dictSet acc pr.1 pr.2) [] := by
        rw [List.foldl_map]
      rw [h1, h2, hs]
    · rw [if_neg hf, if_neg hf, hm]

/-- C9 counterexample: two registries that differ only in the portion of
the URL before its last 8 characters (one URL is exactly 8 characters, so
that portion is empty) render differently: the longer URL is shown as
`...abcdefgh` while the 8-character URL is shown in full without the
ellipsis. -/
theorem C9_counterexample :
    takeRightStr 8 "0abcdefgh" = takeRightStr 8 "abcdefgh" ∧
    discord_list_webhooks [("a", ⟨some "0abcdefgh", none, none⟩)] ResponseFormat.markdown ≠
      discord_list_webhooks [("a", ⟨some "abcdefgh", none, none⟩)] ResponseFormat.markdown := by
  refine ⟨by decide, by decide⟩

/-- C9 witness: two registries whose URLs differ only before the last 8
characters (both longer than 8) produce identical JSON output. -/
theorem C9_witness :
    discord_list_webhooks [("a", ⟨some "AAAAabcdefgh", some "d", some "t"⟩)]
        ResponseFormat.json =
      discord_list_webhooks [("a", ⟨some "ZZZZZZabcdefgh", some "d", some "t"⟩)]
        ResponseFormat.json := by
  exact C9_list_redaction _ _ _ (by decide)

end DiscordMcp
